import Mathlib

/-!
Verification development for the Aspect Model of `core_types`:
a shallow embedding of `src/crates/core_types/src/network/entry_aspect.rs`
together with models (taken from the specification) of the external
collaborator types `Address`, `Entry`, `ChainHeader`, `Link` and `LinkData`,
which are declared outside this crate.
-/

/-- Modelled from the spec: `Address` is an opaque, comparable, hashable
content identifier.  We model it as a string. -/
abbrev Address : Type := String

/-- Modelled from the spec: `Entry` is an opaque payload that exposes its own
content address.  We model the payload as a string of content. -/
structure Entry where
  content : String
deriving DecidableEq

/-- Modelled from the spec: `Entry.address()` computes the entry's own content
address from its content (content-addressed storage is keyed by a hash of the
stored value; we model the hash by an injective tagging of the content). -/
def Entry.address (e : Entry) : Address :=
  String.append "entry-address:" e.content

/-- Modelled from the spec: `ChainHeader` exposes the address of the entry it
headers (`entry_address`), an optional supersede/delete reference
(`link_update_delete`), its own address (`address`) and its entry-type tag
(`entry_type`). -/
structure ChainHeader where
  entry_type : String
  entry_address : Address
  link_update_delete : Option Address
  address : Address
deriving DecidableEq

/-- Modelled from the spec: a link exposes a base address, a target address,
a tag and a link-type. -/
structure Link where
  base : Address
  target : Address
  tag : String
  link_type : String
deriving DecidableEq

/-- Modelled from the spec: `LinkData` exposes a link plus the header of the
chain tip at the time the link was created. -/
structure LinkData where
  link : Link
  top_chain_header : ChainHeader
deriving DecidableEq

/-- Modelled from the spec: the error type used by `entry_address`; the source
builds the variant `HolochainError::ErrorGeneric(String)`, carrying a message
string.  Other variants of the external error type are not used by this core
and are not modelled. -/
inductive HolochainError where
  | ErrorGeneric (msg : String)
deriving DecidableEq

/-- The `EntryAspect` enum of `entry_aspect.rs`, embedded constructor for
constructor: `Content(Entry, ChainHeader)`, `Header(ChainHeader)`,
`LinkAdd(LinkData, ChainHeader)`,
`LinkRemove((LinkData, Vec<Address>), ChainHeader)`,
`Update(Entry, ChainHeader)`, `Deletion(ChainHeader)`. -/
inductive EntryAspect where
  | Content (e : Entry) (h : ChainHeader)
  | Header (h : ChainHeader)
  | LinkAdd (link_data : LinkData) (h : ChainHeader)
  | LinkRemove (p : LinkData × List Address) (h : ChainHeader)
  | Update (e : Entry) (h : ChainHeader)
  | Deletion (h : ChainHeader)
deriving DecidableEq

namespace EntryAspect

/-- Embeds `EntryAspect::type_hint` from `entry_aspect.rs`. -/
def type_hint : EntryAspect → String
  | .Content _ _ => "content"
  | .Header _ => "header"
  | .LinkAdd _ _ => "link_add"
  | .LinkRemove _ _ => "link_remove"
  | .Update _ _ => "update"
  | .Deletion _ => "deletion"

/-- Embeds `EntryAspect::header` from `entry_aspect.rs`. -/
def header : EntryAspect → ChainHeader
  | .Content _ h => h
  | .Header h => h
  | .LinkAdd _ h => h
  | .LinkRemove _ h => h
  | .Update _ h => h
  | .Deletion h => h

end EntryAspect

/-- Modelled from the spec: the debug rendering of a `ChainHeader` (its `Debug`
implementation lives outside this crate); we render all four exposed fields. -/
def debugChainHeader (h : ChainHeader) : String :=
  String.append "ChainHeader(entry_type: " (String.append h.entry_type
    (String.append ", entry_address: " (String.append h.entry_address
      (String.append ", link_update_delete: " (String.append
        (match h.link_update_delete with
          | none => "None"
          | some a => String.append "Some(" (String.append a ")"))
        (String.append ", address: " (String.append h.address ")")))))))

/-- The error value built by `entry_address` on an `Update`/`Deletion` aspect
whose header lacks the `link_update_delete` reference (the `ok_or_else`
closure in `entry_aspect.rs`): a generic error whose message embeds a debug
rendering of the offending header. -/
def noLinkUpdateDeleteError (h : ChainHeader) : HolochainError :=
  .ErrorGeneric (String.append
    "no link_update_delete on Update/Deletion entry header. Header: "
    (debugChainHeader h))

/-- Embeds `EntryAspect::entry_address` from `entry_aspect.rs`. -/
def EntryAspect.entry_address : EntryAspect → Except HolochainError Address
  | .Content _ h => .ok h.entry_address
  | .LinkAdd link_data _ => .ok link_data.link.base
  | .LinkRemove (link_data, _) _ => .ok link_data.link.base
  | .Update _ h =>
    match h.link_update_delete with
    | some a => .ok a
    | none => .error (noLinkUpdateDeleteError h)
  | .Deletion h =>
    match h.link_update_delete with
    | some a => .ok a
    | none => .error (noLinkUpdateDeleteError h)
  | .Header h => .ok h.address

/-- Embeds `format_header` from `entry_aspect.rs`: a compact header summary
showing the entry-type tag and the supersede/delete (crud link) reference. -/
def format_header (h : ChainHeader) : String :=
  String.append "Header[type: " (String.append h.entry_type
    (String.append ", crud_link: " (String.append
      (match h.link_update_delete with
        | none => "None"
        | some a => String.append "Some(" (String.append a ")"))
      "]")))

/-- Embeds the `fmt::Debug` implementation for `EntryAspect` from
`entry_aspect.rs` as a rendering function to strings. -/
def render : EntryAspect → String
  | .Content e h =>
    "EntryAspect::Content(" ++ e.address ++ ", " ++ format_header h ++ ")"
  | .Header h =>
    "EntryAspect::Header(" ++ format_header h ++ ")"
  | .LinkAdd link_data h =>
    "EntryAspect::LinkAdd(" ++ link_data.link.base ++ " -> " ++
      link_data.link.target ++ " [tag: " ++ link_data.link.tag ++
      ", type: " ++ link_data.link.link_type ++ "], " ++ format_header h ++ ")"
  | .LinkRemove (link_data, _) h =>
    "EntryAspect::LinkRemove(" ++ link_data.link.base ++ " -> " ++
      link_data.link.target ++ " [tag: " ++ link_data.link.tag ++
      ", type: " ++ link_data.link.link_type ++ "], top_chain_header:" ++
      format_header link_data.top_chain_header ++ ", remove_header: " ++
      format_header h ++ ")"
  | .Update e h =>
    "EntryAspect::Update(" ++ e.address ++ ", " ++ format_header h ++ ")"
  | .Deletion h =>
    "EntryAspect::Deletion(" ++ format_header h ++ ")"

/-- Embeds the `Hash` implementation for `EntryAspect` from `entry_aspect.rs`:
the data fed to the hasher is the aspect's header followed by its type hint,
so the hash is a function of exactly this pair. -/
def hashInput (a : EntryAspect) : ChainHeader × String :=
  (a.header, a.type_hint)

/-- Modelled from the spec: the JSON data model of the external
`holochain_json_api` crate, into which `serialize` encodes aspects. -/
inductive Json where
  | str (s : String)
  | arr (xs : List Json)
  | obj (fields : List (String × Json))
  | jnull

/-- Modelled from the spec: the deserialization error of the external JSON
crate, raised on malformed or structurally invalid encoded input. -/
inductive JsonError where
  | deserializationError (msg : String)
deriving DecidableEq

/-- Modelled from the spec: encoding of an optional address field. -/
def encodeOptAddress : Option Address → Json
  | none => .jnull
  | some a => .str a

/-- Modelled from the spec: decoding of an optional address field. -/
def decodeOptAddress : Json → Except JsonError (Option Address)
  | .jnull => .ok none
  | .str a => .ok (some a)
  | _ => .error (.deserializationError "expected an optional address")

/-- Modelled from the spec: canonical encoding of a `ChainHeader`'s exposed
fields. -/
def encodeChainHeader (h : ChainHeader) : Json :=
  .obj [("entry_type", .str h.entry_type),
        ("entry_address", .str h.entry_address),
        ("link_update_delete", encodeOptAddress h.link_update_delete),
        ("address", .str h.address)]

/-- Modelled from the spec: decoding of a `ChainHeader`. -/
def decodeChainHeader : Json → Except JsonError ChainHeader
  | .obj [("entry_type", .str t),
          ("entry_address", .str ea),
          ("link_update_delete", j),
          ("address", .str ad)] => do
    let l ← decodeOptAddress j
    .ok ⟨t, ea, l, ad⟩
  | _ => .error (.deserializationError "expected a ChainHeader object")

/-- Modelled from the spec: canonical encoding of an `Entry`. -/
def encodeEntry (e : Entry) : Json :=
  .obj [("content", .str e.content)]

/-- Modelled from the spec: decoding of an `Entry`. -/
def decodeEntry : Json → Except JsonError Entry
  | .obj [("content", .str c)] => .ok ⟨c⟩
  | _ => .error (.deserializationError "expected an Entry object")

/-- Modelled from the spec: canonical encoding of a `Link`. -/
def encodeLink (l : Link) : Json :=
  .obj [("base", .str l.base),
        ("target", .str l.target),
        ("tag", .str l.tag),
        ("link_type", .str l.link_type)]

/-- Modelled from the spec: decoding of a `Link`. -/
def decodeLink : Json → Except JsonError Link
  | .obj [("base", .str b),
          ("target", .str t),
          ("tag", .str tg),
          ("link_type", .str lt)] => .ok ⟨b, t, tg, lt⟩
  | _ => .error (.deserializationError "expected a Link object")

/-- Modelled from the spec: canonical encoding of a `LinkData`. -/
def encodeLinkData (ld : LinkData) : Json :=
  .obj [("link", encodeLink ld.link),
        ("top_chain_header", encodeChainHeader ld.top_chain_header)]

/-- Modelled from the spec: decoding of a `LinkData`. -/
def decodeLinkData : Json → Except JsonError LinkData
  | .obj [("link", jl), ("top_chain_header", jh)] => do
    let l ← decodeLink jl
    let h ← decodeChainHeader jh
    .ok ⟨l, h⟩
  | _ => .error (.deserializationError "expected a LinkData object")

/-- Modelled from the spec: decoding of a list of addresses. -/
def decodeAddressList : List Json → Except JsonError (List Address)
  | [] => .ok []
  | .str a :: rest => do
    let addrs ← decodeAddressList rest
    .ok (a :: addrs)
  | _ => .error (.deserializationError "expected a list of addresses")

/-- Modelled from the spec: `serialize` — the canonical, deterministic,
externally-tagged encoding of an `EntryAspect` produced by the derived
`Serialize`/`DefaultJson` machinery (the `content()` path of the
`AddressableContent` implementation in `entry_aspect.rs`). -/
def serialize : EntryAspect → Json
  | .Content e h => .obj [("Content", .arr [encodeEntry e, encodeChainHeader h])]
  | .Header h => .obj [("Header", encodeChainHeader h)]
  | .LinkAdd ld h => .obj [("LinkAdd", .arr [encodeLinkData ld, encodeChainHeader h])]
  | .LinkRemove (ld, addrs) h =>
    .obj [("LinkRemove",
           .arr [.arr [encodeLinkData ld, .arr (addrs.map Json.str)],
                 encodeChainHeader h])]
  | .Update e h => .obj [("Update", .arr [encodeEntry e, encodeChainHeader h])]
  | .Deletion h => .obj [("Deletion", encodeChainHeader h)]

/-- Modelled from the spec: `deserialize` — the total parse function produced
by the derived `Deserialize` machinery (the `try_from_content` path of the
`AddressableContent` implementation in `entry_aspect.rs`); fails with a
deserialization error on malformed or type-mismatched input. -/
def deserialize : Json → Except JsonError EntryAspect
  | .obj [("Content", .arr [je, jh])] => do
    let e ← decodeEntry je
    let h ← decodeChainHeader jh
    .ok (.Content e h)
  | .obj [("Header", jh)] => do
    let h ← decodeChainHeader jh
    .ok (.Header h)
  | .obj [("LinkAdd", .arr [jld, jh])] => do
    let ld ← decodeLinkData jld
    let h ← decodeChainHeader jh
    .ok (.LinkAdd ld h)
  | .obj [("LinkRemove", .arr [.arr [jld, .arr jaddrs], jh])] => do
    let ld ← decodeLinkData jld
    let addrs ← decodeAddressList jaddrs
    let h ← decodeChainHeader jh
    .ok (.LinkRemove (ld, addrs) h)
  | .obj [("Update", .arr [je, jh])] => do
    let e ← decodeEntry je
    let h ← decodeChainHeader jh
    .ok (.Update e h)
  | .obj [("Deletion", jh)] => do
    let h ← decodeChainHeader jh
    .ok (.Deletion h)
  | _ => .error (.deserializationError "unrecognized EntryAspect encoding")

/-- Constructor discriminator used to state injectivity of `type_hint`:
distinct variants have distinct indices. -/
def ctorIdx : EntryAspect → Nat
  | .Content _ _ => 0
  | .Header _ => 1
  | .LinkAdd _ _ => 2
  | .LinkRemove _ _ => 3
  | .Update _ _ => 4
  | .Deletion _ => 5

/-- `containsStr hay needle` holds when `needle` occurs verbatim as a
contiguous substring of `hay`. -/
def containsStr (hay needle : String) : Prop :=
  ∃ a b, hay = a ++ (needle ++ b)

/-- Decoding is a left inverse of encoding for optional addresses. -/
theorem decodeOptAddress_encodeOptAddress (o : Option Address) :
    decodeOptAddress (encodeOptAddress o) = .ok o := by
  cases o <;> rfl

/-- Decoding is a left inverse of encoding for address lists. -/
theorem decodeAddressList_map (xs : List Address) :
    decodeAddressList (xs.map Json.str) = .ok xs := by
  induction xs with
  | nil => rfl
  | cons a rest ih =>
    simp only [List.map_cons, decodeAddressList]
    rw [ih]
    rfl

/-- Claim C4: serialization round-trip — for every constructible `EntryAspect`
value `v`, `deserialize (serialize v)` succeeds and returns `v`. -/
theorem deserialize_serialize_roundtrip :
    ∀ v : EntryAspect, deserialize (serialize v) = .ok v := by
  intro v
  cases v with
  | Content e h =>
    cases e
    cases h with
    | mk t ea l ad => cases l <;> rfl
  | Header h =>
    cases h with
    | mk t ea l ad => cases l <;> rfl
  | LinkAdd ld h =>
    cases ld with
    | mk lk th =>
      cases lk
      cases th with
      | mk t1 ea1 l1 ad1 =>
        cases h with
        | mk t2 ea2 l2 ad2 => cases l1 <;> cases l2 <;> rfl
  | LinkRemove p h =>
    obtain ⟨ld, addrs⟩ := p
    obtain ⟨⟨b, t, tg, lt⟩, ⟨t1, ea1, l1, ad1⟩⟩ := ld
    obtain ⟨t2, ea2, l2, ad2⟩ := h
    have key : ∀ (k : List Address → Except JsonError EntryAspect),
        Except.bind (decodeAddressList (addrs.map Json.str)) k = k addrs := by
      intro k
      rw [decodeAddressList_map]
      rfl
    cases l1 <;> cases l2 <;> exact key _
  | Update e h =>
    cases e
    cases h with
    | mk t ea l ad => cases l <;> rfl
  | Deletion h =>
    cases h with
    | mk t ea l ad => cases l <;> rfl

/-- Claim C1: `entry_address` on `Update e H` and `Deletion H` returns `Ok X`
exactly when `H`'s supersede/delete reference (`link_update_delete`) is
present with value `X`; when the reference is absent it fails with the error
built from the offending header; no other variant's `entry_address` ever
fails. -/
theorem entry_address_update_deletion_characterization :
    (∀ (e : Entry) (H : ChainHeader) (X : Address),
        (EntryAspect.entry_address (.Update e H) = .ok X
          ↔ H.link_update_delete = some X)
      ∧ (EntryAspect.entry_address (.Deletion H) = .ok X
          ↔ H.link_update_delete = some X))
    ∧ (∀ (e : Entry) (H : ChainHeader), H.link_update_delete = none →
        EntryAspect.entry_address (.Update e H)
            = .error (noLinkUpdateDeleteError H)
        ∧ EntryAspect.entry_address (.Deletion H)
            = .error (noLinkUpdateDeleteError H))
    ∧ (∀ (e : Entry) (H : ChainHeader),
        EntryAspect.entry_address (.Content e H) = .ok H.entry_address)
    ∧ (∀ H : ChainHeader, EntryAspect.entry_address (.Header H) = .ok H.address)
    ∧ (∀ (ld : LinkData) (H : ChainHeader),
        EntryAspect.entry_address (.LinkAdd ld H) = .ok ld.link.base)
    ∧ (∀ (ld : LinkData) (rs : List Address) (H : ChainHeader),
        EntryAspect.entry_address (.LinkRemove (ld, rs) H) = .ok ld.link.base) := by
  refine ⟨?_, ?_, fun e H => rfl, fun H => rfl, fun ld H => rfl, fun ld rs H => rfl⟩
  · intro e H X
    constructor <;>
      cases hl : H.link_update_delete <;>
        simp [EntryAspect.entry_address, hl]
  · intro e H hnone
    constructor <;> simp [EntryAspect.entry_address, hnone]

/-- Witness for C1: a concrete header without a supersede reference makes
`entry_address` of a `Deletion` aspect fail with the header-carrying error. -/
theorem entry_address_update_deletion_characterization_witness :
    EntryAspect.entry_address (.Deletion ⟨"app", "addr-A", none, "addr-H"⟩)
      = .error (noLinkUpdateDeleteError ⟨"app", "addr-A", none, "addr-H"⟩) :=
  (entry_address_update_deletion_characterization.2.1
    ⟨"payload"⟩ ⟨"app", "addr-A", none, "addr-H"⟩ rfl).2

/-- Claim C2: `entry_address` on `Content e H` returns `Ok` of the entry
address recorded in the header, for every entry `e`, independent of the
address computed from `e`'s own content. -/
theorem entry_address_content_trusts_header :
    (∀ (e : Entry) (H : ChainHeader),
        EntryAspect.entry_address (.Content e H) = .ok H.entry_address)
    ∧ (∀ (e₁ e₂ : Entry) (H : ChainHeader),
        EntryAspect.entry_address (.Content e₁ H)
          = EntryAspect.entry_address (.Content e₂ H)) :=
  ⟨fun _ _ => rfl, fun _ _ _ => rfl⟩

/-- Claim C3: `entry_address` on `LinkAdd` and `LinkRemove` returns `Ok` of
the link's base address, for every header and every removal-address list. -/
theorem entry_address_link_base :
    ∀ (ld : LinkData) (H : ChainHeader) (rs : List Address),
      EntryAspect.entry_address (.LinkAdd ld H) = .ok ld.link.base
      ∧ EntryAspect.entry_address (.LinkRemove (ld, rs) H) = .ok ld.link.base :=
  fun _ _ _ => ⟨rfl, rfl⟩

/-- Claim C5: hash/equality contract — equal aspects have equal hash input;
equality is structural over all payload and header fields (shown for the
`Content` variant); the hash input is exactly the pair of the header and the
variant's discriminator tag; and two unequal `Content` aspects sharing a
header have equal hash input. -/
theorem hash_equality_contract :
    (∀ a b : EntryAspect, a = b → hashInput a = hashInput b)
    ∧ (∀ (e₁ e₂ : Entry) (h₁ h₂ : ChainHeader),
        EntryAspect.Content e₁ h₁ = EntryAspect.Content e₂ h₂
          ↔ e₁ = e₂ ∧ h₁ = h₂)
    ∧ (∀ a : EntryAspect, hashInput a = (a.header, a.type_hint))
    ∧ (EntryAspect.Content ⟨"one"⟩ ⟨"app", "addr-A", none, "addr-H"⟩
         ≠ EntryAspect.Content ⟨"two"⟩ ⟨"app", "addr-A", none, "addr-H"⟩
       ∧ hashInput (EntryAspect.Content ⟨"one"⟩ ⟨"app", "addr-A", none, "addr-H"⟩)
         = hashInput (EntryAspect.Content ⟨"two"⟩ ⟨"app", "addr-A", none, "addr-H"⟩)) := by
  refine ⟨fun a b hab => by rw [hab], ?_, fun a => rfl, by decide, rfl⟩
  intro e₁ e₂ h₁ h₂
  constructor
  · intro h
    exact ⟨by injection h, by injection h⟩
  · rintro ⟨rfl, rfl⟩
    rfl

/-- Witness for C5: the equal-implies-equal-hash direction applied at a
concrete aspect. -/
theorem hash_equality_contract_witness :
    hashInput (EntryAspect.Deletion ⟨"app", "addr-A", some "addr-X", "addr-H"⟩)
      = hashInput (EntryAspect.Deletion ⟨"app", "addr-A", some "addr-X", "addr-H"⟩) :=
  hash_equality_contract.1 _ _ rfl

/-- Claim C6: `type_hint` is total and always returns one of the six fixed
tags, and the mapping from variant to tag is injective — aspects with equal
tags are of the same variant. -/
theorem type_hint_total_and_injective :
    (∀ a : EntryAspect,
        a.type_hint = "content" ∨ a.type_hint = "header"
        ∨ a.type_hint = "link_add" ∨ a.type_hint = "link_remove"
        ∨ a.type_hint = "update" ∨ a.type_hint = "deletion")
    ∧ (∀ a b : EntryAspect, a.type_hint = b.type_hint → ctorIdx a = ctorIdx b) := by
  constructor
  · intro a
    cases a <;> simp [EntryAspect.type_hint]
  · intro a b hab
    cases a <;> cases b <;> simp_all [EntryAspect.type_hint, ctorIdx]

/-- Witness for C6: injectivity applied at two concrete aspects with equal
tags. -/
theorem type_hint_total_and_injective_witness :
    ctorIdx (EntryAspect.Deletion ⟨"app", "addr-A", none, "addr-H"⟩)
      = ctorIdx (EntryAspect.Deletion ⟨"sys", "addr-B", some "addr-X", "addr-K"⟩) :=
  type_hint_total_and_injective.2 _ _ rfl

/-- Claim C7: `header` is total across all six variants and returns precisely
the `ChainHeader` supplied at construction. -/
theorem header_total_returns_constructed :
    ∀ (e : Entry) (h : ChainHeader) (ld : LinkData) (rs : List Address),
      (EntryAspect.Content e h).header = h
      ∧ (EntryAspect.Header h).header = h
      ∧ (EntryAspect.LinkAdd ld h).header = h
      ∧ (EntryAspect.LinkRemove (ld, rs) h).header = h
      ∧ (EntryAspect.Update e h).header = h
      ∧ (EntryAspect.Deletion h).header = h :=
  fun _ _ _ _ => ⟨rfl, rfl, rfl, rfl, rfl, rfl⟩

/-- Claim C8: rendering completeness — the rendered string of a `LinkAdd`
aspect contains the link's base, target, tag and link-type verbatim, and the
rendered string of a `LinkRemove` aspect contains both the outer header's
summary and the nested top-chain-header summary from the embedded `LinkData`. -/
theorem render_completeness :
    ∀ (ld : LinkData) (rs : List Address) (h : ChainHeader),
      containsStr (render (.LinkAdd ld h)) ld.link.base
      ∧ containsStr (render (.LinkAdd ld h)) ld.link.target
      ∧ containsStr (render (.LinkAdd ld h)) ld.link.tag
      ∧ containsStr (render (.LinkAdd ld h)) ld.link.link_type
      ∧ containsStr (render (.LinkRemove (ld, rs) h)) (format_header h)
      ∧ containsStr (render (.LinkRemove (ld, rs) h))
          (format_header ld.top_chain_header) := by
  intro ld rs h
  refine ⟨⟨"EntryAspect::LinkAdd(",
            " -> " ++ ld.link.target ++ " [tag: " ++ ld.link.tag ++ ", type: " ++
              ld.link.link_type ++ "], " ++ format_header h ++ ")", ?_⟩,
          ⟨"EntryAspect::LinkAdd(" ++ ld.link.base ++ " -> ",
            " [tag: " ++ ld.link.tag ++ ", type: " ++ ld.link.link_type ++ "], " ++
              format_header h ++ ")", ?_⟩,
          ⟨"EntryAspect::LinkAdd(" ++ ld.link.base ++ " -> " ++ ld.link.target ++
              " [tag: ",
            ", type: " ++ ld.link.link_type ++ "], " ++ format_header h ++ ")", ?_⟩,
          ⟨"EntryAspect::LinkAdd(" ++ ld.link.base ++ " -> " ++ ld.link.target ++
              " [tag: " ++ ld.link.tag ++ ", type: ",
            "], " ++ format_header h ++ ")", ?_⟩,
          ⟨"EntryAspect::LinkRemove(" ++ ld.link.base ++ " -> " ++ ld.link.target ++
              " [tag: " ++ ld.link.tag ++ ", type: " ++ ld.link.link_type ++
              "], top_chain_header:" ++ format_header ld.top_chain_header ++
              ", remove_header: ",
            ")", ?_⟩,
          ⟨"EntryAspect::LinkRemove(" ++ ld.link.base ++ " -> " ++ ld.link.target ++
              " [tag: " ++ ld.link.tag ++ ", type: " ++ ld.link.link_type ++
              "], top_chain_header:",
            ", remove_header: " ++ format_header h ++ ")", ?_⟩⟩ <;>
    simp only [render, String.append_assoc]

/-- Claim C9: the rendering of a `LinkRemove` aspect never depends on its
removal-address list. -/
theorem render_linkremove_ignores_removals :
    ∀ (ld : LinkData) (r₁ r₂ : List Address) (h : ChainHeader),
      render (.LinkRemove (ld, r₁) h) = render (.LinkRemove (ld, r₂) h) :=
  fun _ _ _ _ => rfl

/-- Claim C10: the rendering of `Content` and `Update` aspects shows the
address recomputed from the entry payload itself and not the entry address
recorded in the header: changing the header's recorded entry address leaves
the rendering unchanged, the rendering contains the entry's own computed
address, and at a concrete input the rendered address differs from what
`entry_address` returns. -/
theorem render_content_update_uses_entry_own_address :
    (∀ (e : Entry) (h : ChainHeader) (a : Address),
        render (.Content e { h with entry_address := a }) = render (.Content e h)
        ∧ render (.Update e { h with entry_address := a }) = render (.Update e h))
    ∧ (∀ (e : Entry) (h : ChainHeader),
        containsStr (render (.Content e h)) e.address
        ∧ containsStr (render (.Update e h)) e.address)
    ∧ (EntryAspect.entry_address
          (.Content ⟨"payload"⟩ ⟨"app", "recorded-A", none, "addr-H"⟩)
        = .ok "recorded-A"
       ∧ Entry.address ⟨"payload"⟩ ≠ "recorded-A") := by
  refine ⟨fun e h a => ⟨rfl, rfl⟩, ?_, rfl, by decide⟩
  intro e h
  refine ⟨⟨"EntryAspect::Content(", ", " ++ format_header h ++ ")", ?_⟩,
          ⟨"EntryAspect::Update(", ", " ++ format_header h ++ ")", ?_⟩⟩ <;>
    simp only [render, String.append_assoc]
